import Mathlib

/-!
Formal model of the `aipapiconverter` export service.

The TypeScript source (`src/services/pdfService.ts`, `src/types.ts`,
`src/App.tsx`) is shallowly embedded here.  JavaScript `number`
arithmetic is idealized as exact rational arithmetic over `ℚ`; pixel
counts produced by `Math.ceil` / `Math.round` are integers `ℤ`; byte
sizes are `ℕ`.  Platform collaborators (canvas encoders, the PDF
container writer, the zip writer) are modelled at their boundary: an
encoder is an abstract size oracle `FileBlob → ℕ`, a produced blob is a
symbolic description of exactly what was drawn and encoded, and the zip
writer receives a list of `(optional folder, file name)` entries.
-/

/-- `Math.round`: round half toward positive infinity. -/
def jsRound (q : ℚ) : ℤ := (q + 1/2).floor

/-- `Math.ceil`. -/
def jsCeil (q : ℚ) : ℤ := -(-q).floor

/-- `types.ts`: `CropState` — offsets from center and zoom factor. -/
structure CropState where
  x : ℚ
  y : ℚ
  scale : ℚ
deriving DecidableEq

/-- The decoded image handle: only its natural size is read by the service. -/
structure HTMLImageElement where
  naturalWidth : ℚ
  naturalHeight : ℚ
deriving DecidableEq

/-- `types.ts`: 300 DPI pixels-per-centimeter conversion factor. -/
def DPI_300_PPCM : ℚ := 1181102 / 10000

/-- One print target entry of the output spec registry. -/
structure PrintSpec where
  widthCm : ℚ
  heightCm : ℚ
  bleedMm : ℚ
deriving DecidableEq

/-- The fixed-size WebP target entry of the output spec registry. -/
structure WebPSpec where
  widthPx : ℤ
  heightPx : ℤ
deriving DecidableEq

/-- The output spec registry object. -/
structure SpecsTable where
  A1 : PrintSpec
  A2 : PrintSpec
  WebP : WebPSpec

/-- `types.ts`: `SPECS` — ISO trim sizes; the service adds 3mm bleed. -/
def SPECS : SpecsTable :=
  { A1 := { widthCm := 594 / 10, heightCm := 841 / 10, bleedMm := 3 }
    A2 := { widthCm := 42, heightCm := 594 / 10, bleedMm := 3 }
    WebP := { widthPx := 912, heightPx := 1296 } }

/-- The rectangle passed to `ctx.drawImage`. -/
structure DrawRect where
  x : ℚ
  y : ℚ
  w : ℚ
  h : ℚ
deriving DecidableEq

/-- An off-screen canvas right before encoding: its pixel size, the
optional background fill, and the single image draw performed on it. -/
structure Canvas where
  width : ℤ
  height : ℤ
  background : Option String
  image : HTMLImageElement
  rect : DrawRect
deriving DecidableEq

/-- The encoded bytes of a canvas: codec and quality parameter. -/
inductive BlobDesc
  | jpeg (canvas : Canvas) (quality : ℚ)
  | webp (canvas : Canvas) (quality : ℚ)
deriving DecidableEq

/-- The canvas a blob was encoded from. -/
def canvasOf : BlobDesc → Canvas
  | .jpeg c _ => c
  | .webp c _ => c

/-- A generated file's payload: either a single-page PDF of the given
physical size with the raster placed at the origin filling the page
(`jsPDF` + `addImage`), or the raw encoded raster. -/
inductive FileBlob
  | pdfDoc (pageWidthCm pageHeightCm : ℚ) (imageData : BlobDesc)
  | raw (data : BlobDesc)
deriving DecidableEq

/-- The pixel size of the raster a file payload carries. -/
def rasterPixelSize : FileBlob → ℤ × ℤ
  | .pdfDoc _ _ d => ((canvasOf d).width, (canvasOf d).height)
  | .raw d => ((canvasOf d).width, (canvasOf d).height)

/-- `types.ts`: `GeneratedFile.type`. -/
inductive FileType
  | pdf
  | webp
deriving DecidableEq

/-- `types.ts`: `GeneratedFile` (the object-URL handle is an external
presentation concern and is not modelled). -/
structure GeneratedFile where
  name : String
  blob : FileBlob
  type : FileType
  dimensions : String
  sizeDisplay : String
deriving DecidableEq

/-- `types.ts`: `BatchResult`. -/
structure BatchResult where
  originalName : String
  files : List GeneratedFile
deriving DecidableEq

/-- `types.ts`: `ExportOptions`. -/
structure ExportOptions where
  includePdf : Bool
  includeWebpFixed : Bool
  includeResize : Bool
  resizeScale : ℚ
deriving DecidableEq

/-- `pdfService.ts` lines 207-279, `generateHighResCanvas`: allocates a
canvas of exactly the target pixel size, fills it white, and draws the
cropped image; the draw rectangle is computed from the crop state and
the ratio between the target width and the preview reference width. -/
def generateHighResCanvas (image : HTMLImageElement) (crop : CropState)
    (targetWidthPx targetHeightPx : ℤ) (referenceWidthPx : ℚ) : Canvas :=
  -- const ratio = targetWidthPx / referenceWidthPx;
  let outRatio := (targetWidthPx : ℚ) / referenceWidthPx
  let scaledImageWidth := (referenceWidthPx * crop.scale) * outRatio
  let scaledImageHeight := (scaledImageWidth / image.naturalWidth) * image.naturalHeight
  let centerX := (targetWidthPx : ℚ) / 2
  let centerY := (targetHeightPx : ℚ) / 2
  let offsetX := crop.x * outRatio
  let offsetY := crop.y * outRatio
  { width := targetWidthPx
    height := targetHeightPx
    background := some "#ffffff"
    image := image
    rect :=
      { x := centerX - scaledImageWidth / 2 + offsetX
        y := centerY - scaledImageHeight / 2 + offsetY
        w := scaledImageWidth
        h := scaledImageHeight } }

/-- `pdfService.ts` lines 281-323, `generateWebPCanvas`: same draw-rect
computation, recomputed inline against the fixed 912×1296 target, then
encoded as WebP at quality 0.9. -/
def generateWebPCanvas (image : HTMLImageElement) (crop : CropState)
    (referenceWidthPx : ℚ) : BlobDesc :=
  let widthPx := SPECS.WebP.widthPx
  let heightPx := SPECS.WebP.heightPx
  let outRatio := (widthPx : ℚ) / referenceWidthPx
  let scaledImageWidth := (referenceWidthPx * crop.scale) * outRatio
  let scaledImageHeight := (scaledImageWidth / image.naturalWidth) * image.naturalHeight
  let centerX := (widthPx : ℚ) / 2
  let centerY := (heightPx : ℚ) / 2
  let offsetX := crop.x * outRatio
  let offsetY := crop.y * outRatio
  .webp
    { width := widthPx
      height := heightPx
      background := some "#ffffff"
      image := image
      rect :=
        { x := centerX - scaledImageWidth / 2 + offsetX
          y := centerY - scaledImageHeight / 2 + offsetY
          w := scaledImageWidth
          h := scaledImageHeight } }
    (9 / 10)

/-- `pdfService.ts` lines 329-359, `generateResizedWebP`: ignores the
crop; clamps the percentage to [1,100], rounds the scaled natural size,
draws the whole image at the origin, encodes WebP at quality 0.85 (no
background fill is performed). -/
def generateResizedWebP (image : HTMLImageElement) (scalePercentage : ℚ) : BlobDesc :=
  let scale := max 1 (min 100 scalePercentage) / 100
  let targetWidth := jsRound (image.naturalWidth * scale)
  let targetHeight := jsRound (image.naturalHeight * scale)
  .webp
    { width := targetWidth
      height := targetHeight
      background := none
      image := image
      rect := { x := 0, y := 0, w := (targetWidth : ℚ), h := (targetHeight : ℚ) } }
    (85 / 100)

/-- `pdfService.ts` lines 361-368, `formatBytes` (decimals = 1): unit
index is the integer part of the base-1024 logarithm; the mantissa is
shown with one decimal, with a trailing `.0` dropped by `parseFloat`. -/
def formatBytes (bytes : ℕ) : String :=
  if bytes = 0 then "0 B"
  else
    let i : ℕ :=
      if bytes < 1024 then 0
      else if bytes < 1024 ^ 2 then 1
      else if bytes < 1024 ^ 3 then 2
      else if bytes < 1024 ^ 4 then 3
      else 4
    let tenths := jsRound ((bytes : ℚ) / (1024 : ℚ) ^ i * 10)
    let mantissa :=
      if tenths % 10 = 0 then toString (tenths / 10)
      else toString (tenths / 10) ++ "." ++ toString (tenths % 10)
    mantissa ++ " " ++ (["B", "KB", "MB", "GB"].getD i "undefined")

/-- `pdfService.ts` line 383: A1 bleed in cm. -/
def a1BleedCm : ℚ := SPECS.A1.bleedMm / 10

/-- `pdfService.ts` line 384. -/
def a1TotalWidthCm : ℚ := SPECS.A1.widthCm + a1BleedCm * 2

/-- `pdfService.ts` line 385. -/
def a1TotalHeightCm : ℚ := SPECS.A1.heightCm + a1BleedCm * 2

/-- `pdfService.ts` line 387. -/
def a1WidthPx : ℤ := jsCeil (a1TotalWidthCm * DPI_300_PPCM)

/-- `pdfService.ts` line 388. -/
def a1HeightPx : ℤ := jsCeil (a1TotalHeightCm * DPI_300_PPCM)

/-- `pdfService.ts` line 412. -/
def a2BleedCm : ℚ := SPECS.A2.bleedMm / 10

/-- `pdfService.ts` line 413. -/
def a2TotalWidthCm : ℚ := SPECS.A2.widthCm + a2BleedCm * 2

/-- `pdfService.ts` line 414. -/
def a2TotalHeightCm : ℚ := SPECS.A2.heightCm + a2BleedCm * 2

/-- `pdfService.ts` line 416. -/
def a2WidthPx : ℤ := jsCeil (a2TotalWidthCm * DPI_300_PPCM)

/-- `pdfService.ts` line 417. -/
def a2HeightPx : ℤ := jsCeil (a2TotalHeightCm * DPI_300_PPCM)

/-- `pdfService.ts` lines 370-484, `processExports`: the export
orchestrator.  `enc` is the abstract platform encoder/container oracle
giving the byte size of each produced blob (`blob.size`); everything
else mirrors the source: the two print PDFs behind `includePdf`, the
fixed 912×1296 WebP behind `includeWebpFixed`, the crop-independent
resize behind `includeResize`, pushed onto `results` in that order. -/
def processExports (enc : FileBlob → ℕ) (image : HTMLImageElement) (crop : CropState)
    (referenceWidthPx : ℚ) (baseFilename : String) (options : ExportOptions)
    (originalFileSize : ℕ) : List GeneratedFile :=
  let baseName := baseFilename
  let pdfFiles : List GeneratedFile :=
    if options.includePdf then
      let a1Data := BlobDesc.jpeg (generateHighResCanvas image crop a1WidthPx a1HeightPx referenceWidthPx) (95/100)
      let a1Blob := FileBlob.pdfDoc a1TotalWidthCm a1TotalHeightCm a1Data
      let a2Data := BlobDesc.jpeg (generateHighResCanvas image crop a2WidthPx a2HeightPx referenceWidthPx) (95/100)
      let a2Blob := FileBlob.pdfDoc a2TotalWidthCm a2TotalHeightCm a2Data
      [ { name := baseName ++ "_A1.pdf", blob := a1Blob, type := .pdf,
          dimensions := "60 x 84.7 cm (incl. 3mm bleed)",
          sizeDisplay := formatBytes (enc a1Blob) },
        { name := baseName ++ "_A2.pdf", blob := a2Blob, type := .pdf,
          dimensions := "42.6 x 60 cm (incl. 3mm bleed)",
          sizeDisplay := formatBytes (enc a2Blob) } ]
    else []
  let webpFiles : List GeneratedFile :=
    if options.includeWebpFixed then
      let webpBlob := FileBlob.raw (generateWebPCanvas image crop referenceWidthPx)
      [ { name := baseName ++ "_web.webp", blob := webpBlob, type := .webp,
          dimensions := "912 x 1296 px",
          sizeDisplay := formatBytes (enc webpBlob) } ]
    else []
  let resizeFiles : List GeneratedFile :=
    if options.includeResize then
      let resizedBlob := FileBlob.raw (generateResizedWebP image options.resizeScale)
      -- display dimensions are computed from the UNCLAMPED percentage
      let w := jsRound (image.naturalWidth * (options.resizeScale / 100))
      let h := jsRound (image.naturalHeight * (options.resizeScale / 100))
      let sizeText :=
        if 0 < originalFileSize then
          let savings : ℤ := (originalFileSize : ℤ) - (enc resizedBlob : ℤ)
          let percentSaved := jsRound ((savings : ℚ) / (originalFileSize : ℚ) * 100)
          formatBytes originalFileSize ++ " → " ++ formatBytes (enc resizedBlob)
            ++ " (" ++ (if 0 < savings then "↓" else "↑") ++ toString percentSaved ++ "%)"
        else formatBytes (enc resizedBlob)
      [ { name := baseName ++ "_small.webp", blob := resizedBlob, type := .webp,
          dimensions := toString w ++ " x " ++ toString h ++ " px",
          sizeDisplay := sizeText } ]
    else []
  pdfFiles ++ webpFiles ++ resizeFiles

/-- `pdfService.ts` lines 489-500, the `forEach` body of `generateZip`:
one batch result's contribution to the archive, as `(folder?, name)`
paths handed to the zip writer.  The folder is the result's
`originalName` when the whole batch has more than one result, and the
archive root otherwise. -/
def entriesOfBatch (batchResults : List BatchResult) (batch : BatchResult) :
    List (Option String × String) :=
  let folder : Option String :=
    if 1 < batchResults.length then some batch.originalName else none
  batch.files.map fun file => (folder, file.name)

/-- `pdfService.ts` lines 486-503, `generateZip`: every entry handed to
the zip writer, in order. -/
def zipEntries (batchResults : List BatchResult) : List (Option String × String) :=
  batchResults.flatMap (entriesOfBatch batchResults)

/-- `String.prototype.lastIndexOf` for a single character, over the
string's character list: index of the last occurrence, `-1` if absent. -/
def jsLastIndexOf (c : Char) : List Char → ℤ
  | [] => -1
  | a :: as =>
    let r := jsLastIndexOf c as
    if r = -1 then (if a = c then 0 else -1) else r + 1

/-- `String.prototype.substring(0, i)`: a negative end index is clamped
to `0`. -/
def jsSubstring0 (l : List Char) (endIndex : ℤ) : List Char :=
  l.take endIndex.toNat

/-- `App.tsx` line 462: `file.name.substring(0, file.name.lastIndexOf('.')) || file.name`
— strip the extension at the last dot; if the result is the empty
string (no dot, or a leading dot only), fall back to the whole name. -/
def stripExtension (s : String) : String :=
  let kept := jsSubstring0 s.data (jsLastIndexOf '.' s.data)
  if kept = [] then s else ⟨kept⟩

/-- JavaScript's `String.prototype.trim` whitespace test (restricted to
the ASCII whitespace actually occurring in filenames). -/
def isJsSpace (c : Char) : Bool :=
  c = ' ' || c = '\t' || c = '\n' || c = '\r' || c = '\x0b' || c = '\x0c'

/-- `String.prototype.trim`. -/
def jsTrim (s : String) : String :=
  ⟨((s.data.dropWhile isJsSpace).reverse.dropWhile isJsSpace).reverse⟩

/-- `App.tsx` lines 460-463 (same in `src/unnamed/part_001` lines
161-164): the per-item base name — the trimmed custom name from state
when it is present and non-blank, otherwise the original filename with
its extension stripped.  `none` models a missing state entry
(`fileNames[i]` being `undefined`). -/
def resolveBaseName (customName : Option String) (originalFileName : String) : String :=
  match customName with
  | none => stripExtension originalFileName
  | some s =>
    let t := jsTrim s
    if t = "" then stripExtension originalFileName else t

/-- The transform-engine formula exactly as the spec states it:
`ratio = Wt/R`, `drawW = R*scale*ratio`, `drawH = drawW*(Hn/Wn)`,
`drawX = Wt/2 - drawW/2 + x*ratio`, `drawY = Ht/2 - drawH/2 + y*ratio`. -/
def specDrawRect (image : HTMLImageElement) (crop : CropState) (R : ℚ)
    (Wt Ht : ℤ) : DrawRect :=
  let drawW := R * crop.scale * ((Wt : ℚ) / R)
  let drawH := drawW * (image.naturalHeight / image.naturalWidth)
  { x := (Wt : ℚ) / 2 - drawW / 2 + crop.x * ((Wt : ℚ) / R)
    y := (Ht : ℚ) / 2 - drawH / 2 + crop.y * ((Wt : ℚ) / R)
    w := drawW
    h := drawH }

/-- The savings comparison exactly as the spec states it:
`savingsPct = round((original-result)/original*100)`, displayed as
`"{orig} → {result} ({↓ or ↑}{pct}%)"`, the down-indicator exactly when
the result is smaller. -/
def savingsDisplaySpec (originalFileSize resultSize : ℕ) : String :=
  formatBytes originalFileSize ++ " → " ++ formatBytes resultSize
    ++ " (" ++ (if resultSize < originalFileSize then "↓" else "↑")
    ++ toString (jsRound (((originalFileSize : ℚ) - (resultSize : ℚ)) / (originalFileSize : ℚ) * 100))
    ++ "%)"

/-- A concrete 4×3 image for witnesses. -/
def sampleImage : HTMLImageElement := ⟨4, 3⟩

/-- The initial crop state `{x: 0, y: 0, scale: 1}`. -/
def cropZero : CropState := ⟨0, 0, 1⟩

/-- A second, distinct crop state. -/
def cropShifted : CropState := ⟨5, 7, 2⟩

/-- A concrete blob payload for witness files. -/
def sampleBlob : FileBlob := .raw (generateResizedWebP sampleImage 50)

/-- A concrete generated file with the given name. -/
def sampleFile (n : String) : GeneratedFile :=
  { name := n, blob := sampleBlob, type := .webp, dimensions := "", sizeDisplay := "" }

/-- A constant-size encoder oracle. -/
def encConst (n : ℕ) : FileBlob → ℕ := fun _ => n

/-- A concrete generated file with the given name and size display. -/
def sampleFileD (n disp : String) : GeneratedFile :=
  { name := n, blob := sampleBlob, type := .webp, dimensions := "", sizeDisplay := disp }

/-- First of two distinct batch results sharing the base name "a". -/
def dupBatchA : BatchResult := ⟨"a", [sampleFileD "a_A1.pdf" "1 MB"]⟩

/-- Second of two distinct batch results sharing the base name "a". -/
def dupBatchB : BatchResult := ⟨"a", [sampleFileD "a_A1.pdf" "2 MB"]⟩

lemma ratFloor_eq_floor (a : ℚ) : a.floor = ⌊a⌋ := by
  rw [Rat.floor_def', Rat.floor_def]

lemma jsRound_eq_floor (q : ℚ) : jsRound q = ⌊q + 1/2⌋ := by
  unfold jsRound; rw [ratFloor_eq_floor]

lemma jsCeil_eq_ceil (q : ℚ) : jsCeil q = ⌈q⌉ := by
  unfold jsCeil; rw [ratFloor_eq_floor, Int.floor_neg, neg_neg]

lemma jsRound_eval (q : ℚ) (z : ℤ) (h1 : (z : ℚ) ≤ q + 1/2) (h2 : q + 1/2 < z + 1) :
    jsRound q = z := by
  rw [jsRound_eq_floor]; exact Int.floor_eq_iff.mpr ⟨h1, h2⟩

lemma jsCeil_eval (q : ℚ) (z : ℤ) (h1 : (z : ℚ) - 1 < q) (h2 : q ≤ (z : ℚ)) :
    jsCeil q = z := by
  rw [jsCeil_eq_ceil]; exact Int.ceil_eq_iff.mpr ⟨h1, h2⟩

/-- Claim C1: for every image natural size, crop state, reference width
and target pixel size, the draw rectangle computed by the rasterizer
(`generateHighResCanvas`, and likewise the inlined recomputation in
`generateWebPCanvas` at its fixed 912×1296 target) equals the spec
formula `drawW = R*scale*(Wt/R)`, `drawH = drawW*(Hn/Wn)`,
`drawX = Wt/2 - drawW/2 + x*(Wt/R)`, `drawY = Ht/2 - drawH/2 + y*(Wt/R)`. -/
theorem transform_matches_spec_formula (image : HTMLImageElement) (crop : CropState)
    (Wt Ht : ℤ) (R : ℚ) :
    (generateHighResCanvas image crop Wt Ht R).rect = specDrawRect image crop R Wt Ht
    ∧ (canvasOf (generateWebPCanvas image crop R)).rect
        = specDrawRect image crop R SPECS.WebP.widthPx SPECS.WebP.heightPx := by
  constructor <;>
    simp only [generateHighResCanvas, generateWebPCanvas, canvasOf, specDrawRect,
      DrawRect.mk.injEq] <;>
    refine ⟨by ring_nf, by ring_nf, by ring_nf, by ring_nf⟩

/-- Claim C4: for a fixed crop state and reference width, the horizontal
draw offset relative to the target center scales linearly between any
two target widths: `drawX(Wt2) - Wt2/2 = (drawX(Wt1) - Wt1/2) * (Wt2/Wt1)`. -/
theorem drawX_scales_linearly (image : HTMLImageElement) (crop : CropState) (R : ℚ)
    (Wt1 Ht1 Wt2 Ht2 : ℤ) (h1 : (Wt1 : ℚ) ≠ 0) :
    (generateHighResCanvas image crop Wt2 Ht2 R).rect.x - (Wt2 : ℚ) / 2
      = ((generateHighResCanvas image crop Wt1 Ht1 R).rect.x - (Wt1 : ℚ) / 2)
          * ((Wt2 : ℚ) / (Wt1 : ℚ)) := by
  simp only [generateHighResCanvas]
  rcases eq_or_ne R 0 with hR | hR
  · subst hR
    simp [div_zero, mul_zero, zero_mul]
  · field_simp
    ring

/-- Witness for C4 at a concrete input: a 4×3 image, crop (1,2,2),
reference width 10, target widths 100 and 200. -/
theorem drawX_scales_linearly_witness :
    (generateHighResCanvas ⟨4, 3⟩ ⟨1, 2, 2⟩ 200 300 10).rect.x - ((200 : ℤ) : ℚ) / 2
      = ((generateHighResCanvas ⟨4, 3⟩ ⟨1, 2, 2⟩ 100 150 10).rect.x - ((100 : ℤ) : ℚ) / 2)
          * (((200 : ℤ) : ℚ) / ((100 : ℤ) : ℚ)) :=
  drawX_scales_linearly ⟨4, 3⟩ ⟨1, 2, 2⟩ 10 100 150 200 300 (by norm_num)

/-- Claim C2, counterexample: the A2 print raster width the code
computes is `ceil(42.6 × 118.1102) = ceil(5031.49452) = 5032`, not the
5029 the claim asserts. -/
theorem a2WidthPx_is_5032_not_5029 : a2WidthPx = 5032 ∧ a2WidthPx ≠ 5029 := by
  have h : a2WidthPx = 5032 := by
    unfold a2WidthPx
    apply jsCeil_eval <;>
      norm_num [a2TotalWidthCm, a2BleedCm, SPECS, DPI_300_PPCM]
  exact ⟨h, by rw [h]; decide⟩

/-- Claim C2 as amended: the print raster pixel sizes computed as
`ceil(total_cm × 118.1102)` per axis from the registry trim+bleed totals
are exactly (7087, 10004) for A1 (total 60.0 × 84.7 cm) and exactly
(5032, 7087) for A2 (total 42.6 × 60.0 cm). -/
theorem printPixelSizes_exact :
    (a1WidthPx, a1HeightPx) = (7087, 10004) ∧ (a2WidthPx, a2HeightPx) = (5032, 7087) := by
  have hw1 : a1WidthPx = 7087 := by
    unfold a1WidthPx
    apply jsCeil_eval <;> norm_num [a1TotalWidthCm, a1BleedCm, SPECS, DPI_300_PPCM]
  have hh1 : a1HeightPx = 10004 := by
    unfold a1HeightPx
    apply jsCeil_eval <;> norm_num [a1TotalHeightCm, a1BleedCm, SPECS, DPI_300_PPCM]
  have hw2 : a2WidthPx = 5032 := by
    unfold a2WidthPx
    apply jsCeil_eval <;> norm_num [a2TotalWidthCm, a2BleedCm, SPECS, DPI_300_PPCM]
  have hh2 : a2HeightPx = 7087 := by
    unfold a2HeightPx
    apply jsCeil_eval <;> norm_num [a2TotalHeightCm, a2BleedCm, SPECS, DPI_300_PPCM]
  rw [hw1, hh1, hw2, hh2]
  exact ⟨rfl, rfl⟩

/-- Claim C3: the export orchestrator returns files in the fixed order
PDF-A1, PDF-A2, fixed-thumbnail, resize, restricted to the enabled
flags, named `{baseName}_A1.pdf`, `{baseName}_A2.pdf`,
`{baseName}_web.webp`, `{baseName}_small.webp`; with zero enabled flags
it returns the empty list. -/
theorem processExports_order_and_names (enc : FileBlob → ℕ) (image : HTMLImageElement)
    (crop : CropState) (R : ℚ) (baseName : String) (options : ExportOptions) (size : ℕ) :
    (processExports enc image crop R baseName options size).map GeneratedFile.name
      = (if options.includePdf then [baseName ++ "_A1.pdf", baseName ++ "_A2.pdf"] else [])
        ++ (if options.includeWebpFixed then [baseName ++ "_web.webp"] else [])
        ++ (if options.includeResize then [baseName ++ "_small.webp"] else [])
    ∧ (options.includePdf = false → options.includeWebpFixed = false →
        options.includeResize = false →
        processExports enc image crop R baseName options size = []) := by
  obtain ⟨p, wf, rz, sc⟩ := options
  constructor
  · cases p <;> cases wf <;> cases rz <;> simp [processExports]
  · intro hp hw hr
    simp only at hp hw hr
    subst hp; subst hw; subst hr
    simp [processExports]

/-- Witness for C3: with all three flags disabled the orchestrator
returns the empty list. -/
theorem processExports_order_and_names_witness :
    processExports (encConst 0) sampleImage cropZero 500 "x" ⟨false, false, false, 50⟩ 0 = [] :=
  (processExports_order_and_names (encConst 0) sampleImage cropZero 500 "x"
    ⟨false, false, false, 50⟩ 0).2 rfl rfl rfl

lemma fst_eq_none_of_mem_zipEntries {bs : List BatchResult} {p : Option String × String}
    (h : ¬ 1 < bs.length) (hp : p ∈ zipEntries bs) : p.1 = none := by
  obtain ⟨c, hc, hpc⟩ := List.mem_flatMap.mp hp
  unfold entriesOfBatch at hpc
  rw [if_neg h] at hpc
  obtain ⟨f, _, hfe⟩ := List.mem_map.mp hpc
  rw [← hfe]

lemma mem_zipEntries_many {bs : List BatchResult} {p : Option String × String}
    (h : 1 < bs.length) (hp : p ∈ zipEntries bs) :
    ∃ c ∈ bs, p.1 = some c.originalName ∧ p.2 ∈ c.files.map GeneratedFile.name := by
  obtain ⟨c, hc, hpc⟩ := List.mem_flatMap.mp hp
  unfold entriesOfBatch at hpc
  rw [if_pos h] at hpc
  obtain ⟨f, hf, hfe⟩ := List.mem_map.mp hpc
  refine ⟨c, hc, ?_, ?_⟩
  · rw [← hfe]
  · rw [← hfe]
    exact List.mem_map.mpr ⟨f, hf, rfl⟩

lemma pairwise_name_inj {bs : List BatchResult}
    (h : bs.Pairwise fun b₁ b₂ => b₁.originalName ≠ b₂.originalName) :
    ∀ b ∈ bs, ∀ c ∈ bs, b.originalName = c.originalName → b = c := by
  induction bs with
  | nil => intro b hb; exact absurd hb (List.not_mem_nil b)
  | cons a l ih =>
    intro b hb c hc heq
    have h1 := (List.pairwise_cons.mp h).1
    have h2 := (List.pairwise_cons.mp h).2
    rcases List.mem_cons.mp hb with rfl | hb'
    · rcases List.mem_cons.mp hc with rfl | hc'
      · rfl
      · exact absurd heq (h1 c hc')
    · rcases List.mem_cons.mp hc with rfl | hc'
      · exact absurd heq.symm (h1 b hb')
      · exact ih h2 b hb' c hc' heq

/-- Claim C5, counterexample: two batch results that share the resolved
base name "a" are written into the same top-level folder, so the folder
named by the first result's base name also holds a file that is not one
of the first result's files. -/
theorem zip_folder_not_exclusive_on_duplicate_names :
    (some "a", "f2.webp")
        ∈ zipEntries [⟨"a", [sampleFile "f1.webp"]⟩, ⟨"a", [sampleFile "f2.webp"]⟩]
    ∧ (⟨"a", [sampleFile "f1.webp"]⟩ : BatchResult).originalName = "a"
    ∧ "f2.webp" ∉ (⟨"a", [sampleFile "f1.webp"]⟩ : BatchResult).files.map GeneratedFile.name := by
  refine ⟨?_, rfl, ?_⟩ <;> simp [zipEntries, entriesOfBatch, sampleFile]

/-- Claim C5 as amended: a single batch result's files go at the archive
root; with more than one result every file of every result goes into the
top-level folder named by its own result's base name; when the resolved
base names are pairwise distinct, a folder named by a result's base name
holds only that result's file names; root-level and foldered placement
are never mixed. -/
theorem generateZip_layout (bs : List BatchResult) :
    (∀ b, bs = [b] → zipEntries bs = b.files.map fun f => ((none : Option String), f.name))
    ∧ (1 < bs.length →
        zipEntries bs
          = bs.flatMap fun batch => batch.files.map fun f => (some batch.originalName, f.name))
    ∧ ((bs.Pairwise fun b₁ b₂ => b₁.originalName ≠ b₂.originalName) →
        ∀ b ∈ bs, ∀ p ∈ zipEntries bs, p.1 = some b.originalName →
          p.2 ∈ b.files.map GeneratedFile.name)
    ∧ (∀ p ∈ zipEntries bs, ∀ q ∈ zipEntries bs, (p.1 = none ↔ q.1 = none)) := by
  refine ⟨?_, ?_, ?_, ?_⟩
  · intro b hb
    subst hb
    simp [zipEntries, entriesOfBatch]
  · intro hlen
    unfold zipEntries entriesOfBatch
    simp [hlen]
  · intro hnames b hb p hp hfold
    by_cases hlen : 1 < bs.length
    · obtain ⟨c, hc, hf1, hf2⟩ := mem_zipEntries_many hlen hp
      have hcb : c = b := by
        apply pairwise_name_inj hnames c hc b hb
        exact Option.some.inj ((hf1.symm.trans hfold))
      rw [← hcb]
      exact hf2
    · have hnone := fst_eq_none_of_mem_zipEntries hlen hp
      rw [hfold] at hnone
      exact Option.noConfusion hnone
  · intro p hp q hq
    by_cases hlen : 1 < bs.length
    · obtain ⟨c, _, hc1, _⟩ := mem_zipEntries_many hlen hp
      obtain ⟨d, _, hd1, _⟩ := mem_zipEntries_many hlen hq
      simp [hc1, hd1]
    · have h1 := fst_eq_none_of_mem_zipEntries hlen hp
      have h2 := fst_eq_none_of_mem_zipEntries hlen hq
      simp [h1, h2]

/-- Witness for C5: one batch result with two files yields exactly two
root entries and no folder. -/
theorem generateZip_layout_witness :
    zipEntries [⟨"solo", [sampleFile "s_A1.pdf", sampleFile "s_web.webp"]⟩]
      = [((none : Option String), "s_A1.pdf"), (none, "s_web.webp")] := by
  have h := (generateZip_layout [⟨"solo", [sampleFile "s_A1.pdf", sampleFile "s_web.webp"]⟩]).1
      ⟨"solo", [sampleFile "s_A1.pdf", sampleFile "s_web.webp"]⟩ rfl
  rw [h]
  simp [sampleFile]

/-- Claim C6, counterexample: two distinct batch results with the same
resolved base name "a" and identically named files contribute the very
same archive path, so their entries are not disjoint and the later write
overwrites the earlier one. -/
theorem zip_paths_collide_on_duplicate_base_names :
    dupBatchA ≠ dupBatchB
    ∧ ∃ p, p ∈ entriesOfBatch [dupBatchA, dupBatchB] dupBatchA
        ∧ p ∈ entriesOfBatch [dupBatchA, dupBatchB] dupBatchB := by
  constructor
  · intro h
    have h2 := congrArg (fun b => b.files.map GeneratedFile.sizeDisplay) h
    simp [dupBatchA, dupBatchB, sampleFileD] at h2
  · refine ⟨(some "a", "a_A1.pdf"), ?_, ?_⟩ <;>
    · unfold entriesOfBatch
      simp [dupBatchA, dupBatchB, sampleFileD]

/-- Claim C6 as amended: when the resolved base names of the batch
results are pairwise distinct, the archive entries contributed by any
two distinct results occupy disjoint paths. -/
theorem zip_paths_disjoint_of_distinct_names (bs : List BatchResult)
    (hnames : bs.Pairwise fun b₁ b₂ => b₁.originalName ≠ b₂.originalName) :
    bs.Pairwise fun b₁ b₂ => ∀ p ∈ entriesOfBatch bs b₁, p ∉ entriesOfBatch bs b₂ := by
  by_cases hlen : 1 < bs.length
  · refine hnames.imp ?_
    intro a b hab p hpa hpb
    unfold entriesOfBatch at hpa hpb
    rw [if_pos hlen] at hpa hpb
    obtain ⟨f, _, hf⟩ := List.mem_map.mp hpa
    obtain ⟨g, _, hg⟩ := List.mem_map.mp hpb
    apply hab
    exact Option.some.inj (congrArg Prod.fst (hf.trans hg.symm))
  · match bs with
    | [] => exact List.Pairwise.nil
    | [a] => exact List.pairwise_singleton _ a
    | a :: b :: l =>
      exact absurd (by simp only [List.length_cons]; omega) hlen

/-- Witness for C6: two results with distinct base names "a" and "b"
contribute pairwise disjoint archive paths even with identical file
names. -/
theorem zip_paths_disjoint_witness :
    List.Pairwise
      (fun b₁ b₂ => ∀ p ∈ entriesOfBatch [⟨"a", [sampleFile "x_A1.pdf"]⟩,
          ⟨"b", [sampleFile "x_A1.pdf"]⟩] b₁,
        p ∉ entriesOfBatch [⟨"a", [sampleFile "x_A1.pdf"]⟩, ⟨"b", [sampleFile "x_A1.pdf"]⟩] b₂)
      [⟨"a", [sampleFile "x_A1.pdf"]⟩, ⟨"b", [sampleFile "x_A1.pdf"]⟩] :=
  zip_paths_disjoint_of_distinct_names
    [⟨"a", [sampleFile "x_A1.pdf"]⟩, ⟨"b", [sampleFile "x_A1.pdf"]⟩]
    (by simp)

/-- Claim C7: for a resize export with known original byte size, the
displayed comparison is exactly the spec's
`"{orig} → {result} ({↓ or ↑}{pct}%)"` with
`pct = round((original-result)/original*100)`, the down-indicator
exactly when the result is smaller and the up-indicator otherwise —
never hidden or clamped. -/
theorem processExports_savings_display (enc : FileBlob → ℕ) (image : HTMLImageElement)
    (crop : CropState) (R : ℚ) (baseName : String) (options : ExportOptions) (size : ℕ)
    (hr : options.includeResize = true) (hs : 0 < size) :
    (processExports enc image crop R baseName options size).getLast?.map GeneratedFile.sizeDisplay
      = some (savingsDisplaySpec size
          (enc (.raw (generateResizedWebP image options.resizeScale)))) := by
  obtain ⟨p, wf, rz, sc⟩ := options
  simp only at hr
  subst hr
  cases p <;> cases wf <;>
    simp [processExports, savingsDisplaySpec, hs, sub_pos, Int.cast_sub, Int.cast_natCast,
      Nat.cast_lt]

lemma formatBytes_1048576 : formatBytes 1048576 = "1 MB" := by
  simp only [formatBytes]
  norm_num
  rw [show jsRound (10 : ℚ) = 10 from jsRound_eval _ 10 (by norm_num) (by norm_num)]
  rfl

lemma formatBytes_524288 : formatBytes 524288 = "512 KB" := by
  simp only [formatBytes]
  norm_num
  rw [show jsRound (5120 : ℚ) = 5120 from jsRound_eval _ 5120 (by norm_num) (by norm_num)]
  rfl

/-- Witness for C7: originalByteSize 1,048,576 and result size 524,288
display as "1 MB → 512 KB (↓50%)" — 50 percent saved, down-indicator. -/
theorem processExports_savings_display_witness :
    (processExports (encConst 524288) sampleImage cropZero 500 "x"
        ⟨false, false, true, 50⟩ 1048576).getLast?.map GeneratedFile.sizeDisplay
      = some "1 MB → 512 KB (↓50%)" := by
  have h := processExports_savings_display (encConst 524288) sampleImage cropZero 500 "x"
      ⟨false, false, true, 50⟩ 1048576 rfl (by norm_num)
  rw [h]
  show some (savingsDisplaySpec 1048576 524288) = _
  unfold savingsDisplaySpec
  rw [formatBytes_1048576, formatBytes_524288]
  norm_num
  rw [show jsRound (50 : ℚ) = 50 from jsRound_eval _ 50 (by norm_num) (by norm_num)]
  rfl

/-- Claim C8: the resize path is crop-independent — for any two crop
states the resize entry carries the identical blob (same drawn content,
dimensions, codec and quality), and its raster is
`round(Wn × clamp(pct,1,100)/100) × round(Hn × clamp(pct,1,100)/100)`. -/
theorem resize_output_crop_independent (enc : FileBlob → ℕ) (image : HTMLImageElement)
    (crop1 crop2 : CropState) (R : ℚ) (baseName : String) (options : ExportOptions) (size : ℕ)
    (hr : options.includeResize = true) :
    ((processExports enc image crop1 R baseName options size).getLast?.map GeneratedFile.blob
        = some (FileBlob.raw (generateResizedWebP image options.resizeScale)))
    ∧ ((processExports enc image crop2 R baseName options size).getLast?.map GeneratedFile.blob
        = some (FileBlob.raw (generateResizedWebP image options.resizeScale)))
    ∧ (canvasOf (generateResizedWebP image options.resizeScale)).width
        = jsRound (image.naturalWidth * (max 1 (min 100 options.resizeScale) / 100))
    ∧ (canvasOf (generateResizedWebP image options.resizeScale)).height
        = jsRound (image.naturalHeight * (max 1 (min 100 options.resizeScale) / 100)) := by
  obtain ⟨p, wf, rz, sc⟩ := options
  simp only at hr
  subst hr
  refine ⟨?_, ?_, rfl, rfl⟩ <;> cases p <;> cases wf <;> simp [processExports]

/-- Witness for C8: two different crop states, same image and
percentage, yield the same resize blob. -/
theorem resize_output_crop_independent_witness :
    (processExports (encConst 0) sampleImage cropZero 500 "x"
        ⟨true, true, true, 50⟩ 0).getLast?.map GeneratedFile.blob
      = (processExports (encConst 0) sampleImage cropShifted 500 "x"
          ⟨true, true, true, 50⟩ 0).getLast?.map GeneratedFile.blob := by
  have h := resize_output_crop_independent (encConst 0) sampleImage cropZero cropShifted 500 "x"
      ⟨true, true, true, 50⟩ 0 rfl
  rw [h.1, h.2.1]

/-- Claim C10: the resize entry's declared dimensions are computed from
the UNCLAMPED percentage while the actual raster uses the clamped one;
inside [1,100] the two coincide, and whenever the rounded pairs differ
the actual raster size is not the declared pair. -/
theorem resize_declared_vs_actual_dims (enc : FileBlob → ℕ) (image : HTMLImageElement)
    (crop : CropState) (R : ℚ) (baseName : String) (options : ExportOptions) (size : ℕ)
    (hr : options.includeResize = true) :
    ((processExports enc image crop R baseName options size).getLast?.map GeneratedFile.dimensions
        = some (toString (jsRound (image.naturalWidth * (options.resizeScale / 100))) ++ " x "
            ++ toString (jsRound (image.naturalHeight * (options.resizeScale / 100))) ++ " px"))
    ∧ ((processExports enc image crop R baseName options size).getLast?.map
          (fun f => rasterPixelSize f.blob)
        = some (jsRound (image.naturalWidth * (max 1 (min 100 options.resizeScale) / 100)),
            jsRound (image.naturalHeight * (max 1 (min 100 options.resizeScale) / 100))))
    ∧ (1 ≤ options.resizeScale → options.resizeScale ≤ 100 →
        (jsRound (image.naturalWidth * (options.resizeScale / 100)),
          jsRound (image.naturalHeight * (options.resizeScale / 100)))
          = (jsRound (image.naturalWidth * (max 1 (min 100 options.resizeScale) / 100)),
              jsRound (image.naturalHeight * (max 1 (min 100 options.resizeScale) / 100))))
    ∧ ((jsRound (image.naturalWidth * (options.resizeScale / 100)),
          jsRound (image.naturalHeight * (options.resizeScale / 100)))
          ≠ (jsRound (image.naturalWidth * (max 1 (min 100 options.resizeScale) / 100)),
              jsRound (image.naturalHeight * (max 1 (min 100 options.resizeScale) / 100))) →
        (processExports enc image crop R baseName options size).getLast?.map
            (fun f => rasterPixelSize f.blob)
          ≠ some (jsRound (image.naturalWidth * (options.resizeScale / 100)),
              jsRound (image.naturalHeight * (options.resizeScale / 100)))) := by
  obtain ⟨p, wf, rz, sc⟩ := options
  simp only at hr
  subst hr
  have h2 : (processExports enc image crop R baseName ⟨p, wf, true, sc⟩ size).getLast?.map
      (fun f => rasterPixelSize f.blob)
      = some (jsRound (image.naturalWidth * (max 1 (min 100 sc) / 100)),
          jsRound (image.naturalHeight * (max 1 (min 100 sc) / 100))) := by
    cases p <;> cases wf <;>
      simp [processExports, rasterPixelSize, generateResizedWebP, canvasOf]
  refine ⟨?_, h2, ?_, ?_⟩
  · cases p <;> cases wf <;> simp [processExports]
  · intro h1 h100
    rw [min_eq_right h100, max_eq_right h1]
  · intro hne hEq
    rw [h2] at hEq
    exact hne (Option.some.inj hEq).symm

/-- Witness for C10: a 100×40 image at resizeScale 200 declares
200 × 80 but rasterizes at the clamped 100 × 40, so the actual raster
size differs from the declared one. -/
theorem resize_declared_vs_actual_dims_witness :
    (processExports (encConst 0) ⟨100, 40⟩ cropZero 500 "x"
        ⟨false, false, true, 200⟩ 0).getLast?.map (fun f => rasterPixelSize f.blob)
      ≠ some (jsRound (((⟨100, 40⟩ : HTMLImageElement)).naturalWidth * ((200 : ℚ) / 100)),
          jsRound (((⟨100, 40⟩ : HTMLImageElement)).naturalHeight * ((200 : ℚ) / 100))) := by
  have h := resize_declared_vs_actual_dims (encConst 0) ⟨100, 40⟩ cropZero 500 "x"
      ⟨false, false, true, 200⟩ 0 rfl
  apply h.2.2.2
  have e1 : jsRound ((100 : ℚ) * ((200 : ℚ) / 100)) = 200 :=
    jsRound_eval _ 200 (by norm_num) (by norm_num)
  have e2 : jsRound ((40 : ℚ) * ((200 : ℚ) / 100)) = 80 :=
    jsRound_eval _ 80 (by norm_num) (by norm_num)
  have e3 : jsRound ((100 : ℚ) * (max 1 (min 100 (200 : ℚ)) / 100)) = 100 :=
    jsRound_eval _ 100 (by norm_num [min_def, max_def]) (by norm_num [min_def, max_def])
  have e4 : jsRound ((40 : ℚ) * (max 1 (min 100 (200 : ℚ)) / 100)) = 40 :=
    jsRound_eval _ 40 (by norm_num [min_def, max_def]) (by norm_num [min_def, max_def])
  show (jsRound ((100 : ℚ) * ((200 : ℚ) / 100)), jsRound ((40 : ℚ) * ((200 : ℚ) / 100)))
    ≠ (jsRound ((100 : ℚ) * (max 1 (min 100 (200 : ℚ)) / 100)),
        jsRound ((40 : ℚ) * (max 1 (min 100 (200 : ℚ)) / 100)))
  rw [e1, e2, e3, e4]
  decide

lemma jsLastIndexOf_eq_neg_one {c : Char} {l : List Char} (h : c ∉ l) :
    jsLastIndexOf c l = -1 := by
  induction l with
  | nil => rfl
  | cons a as ih =>
    have hne : a ≠ c := fun hc => h (hc ▸ List.mem_cons_self a as)
    have h2 : c ∉ as := fun hc => h (List.mem_cons_of_mem a hc)
    simp [jsLastIndexOf, ih h2, hne]

/-- Claim C9: when the custom filename is blank (missing, empty, or
whitespace-only), the resolved base name is the original filename with
its extension stripped at the last dot; an original filename containing
no dot resolves to the full original filename. -/
theorem blank_custom_name_falls_back (customName : Option String) (originalFileName : String)
    (hblank : customName = none ∨ ∃ s, customName = some s ∧ jsTrim s = "") :
    resolveBaseName customName originalFileName = stripExtension originalFileName
    ∧ ('.' ∉ originalFileName.data →
        resolveBaseName customName originalFileName = originalFileName) := by
  have h1 : resolveBaseName customName originalFileName = stripExtension originalFileName := by
    rcases hblank with rfl | ⟨s, rfl, ht⟩
    · rfl
    · simp [resolveBaseName, ht]
  refine ⟨h1, fun hdot => ?_⟩
  rw [h1]
  unfold stripExtension
  rw [jsLastIndexOf_eq_neg_one hdot]
  rfl

/-- Witness for C9: a whitespace-only custom name with original
"photo.jpg" resolves to "photo", and with dotless original "photo"
resolves to "photo" unchanged. -/
theorem blank_custom_name_falls_back_witness :
    resolveBaseName (some " ") "photo.jpg" = "photo"
    ∧ resolveBaseName (some " ") "photo" = "photo" := by
  constructor
  · have h := (blank_custom_name_falls_back (some " ") "photo.jpg"
        (Or.inr ⟨" ", rfl, by decide⟩)).1
    rw [h]
    decide
  · exact (blank_custom_name_falls_back (some " ") "photo"
        (Or.inr ⟨" ", rfl, by decide⟩)).2 (by decide)
